import Mathlib

/-!
# Verification of the OneOsc synth sequencer engine

A shallow embedding of the real-time audio scheduling and voice-management
engine of `src/App.js` (a React component driving the Web Audio API), together
with proofs of the specified properties.

Modelling conventions:

* Audio-clock times and parameter values are rationals (the source computes
  with IEEE doubles on exact decimal literals; the claims are about the exact
  arithmetic relations between schedule points).
* A `Voice` records the transient oscillator → filter → gain chain built by
  `nextStep` (source lines 216-247): node parameters, the wiring, the gain
  automation event list, and the oscillator's start/stop times.
* `EngineState` holds the mutable refs of the component: `playingRef.current`,
  the published `currentStep`, the `lastOsc/lastGain/lastFilter` refs (as a
  list of live voices, at most one in reachable states), and the pending
  `setTimeout` handle.
* React closure capture is modelled faithfully: the state variables
  (`bpm`, `steps`, `waveform`, `volume`, `filter`, `adsr`) read inside
  `nextStep` are the bindings of the render in which the tick chain was
  started.  The pending timer therefore carries the captured `Params`
  snapshot; only `playingRef` is a ref and is read fresh at fire time
  (source line 253).  The control surface's current values live in
  `System.ui`, and edit handlers (always created by the latest render)
  read and update `System.ui`.
-/

/-- Oscillator waveforms offered by the control surface
(source: the waveform select, options sine / sawtooth / triangle). -/
inductive Waveform
  | sine
  | sawtooth
  | triangle
deriving DecidableEq

/-- The pitch table `NOTE_FREQS` (source lines 9-13): note identifier to
fundamental frequency in Hz. -/
def NOTE_FREQS : List (String × ℚ) := [
  ("C3", 130.81), ("C#3", 138.59), ("D3", 146.83), ("D#3", 155.56),
  ("E3", 164.81), ("F3", 174.61), ("F#3", 185.00), ("G3", 196.00),
  ("G#3", 207.65), ("A3", 220.00), ("A#3", 233.08), ("B3", 246.94),
  ("C4", 261.63), ("C#4", 277.18), ("D4", 293.66), ("D#4", 311.13),
  ("E4", 329.63), ("F4", 349.23), ("F#4", 369.99), ("G4", 392.00),
  ("G#4", 415.30), ("A4", 440.00), ("A#4", 466.16), ("B4", 493.88),
  ("C5", 523.25), ("C#5", 554.37), ("D5", 587.33), ("D#5", 622.25),
  ("E5", 659.25), ("F5", 698.46), ("F#5", 739.99), ("G5", 783.99)]

/-- Lookup `NOTE_FREQS[note]` (JS object property access). -/
def noteFreq (note : String) : Option ℚ :=
  (NOTE_FREQS.find? (fun kv => kv.1 == note)).map (fun kv => kv.2)

/-- `clamp(val, min, max)` (source lines 22-24):
`Math.max(min, Math.min(max, val))`. -/
def clamp (val mn mx : ℚ) : ℚ :=
  max mn (min mx val)

/-- The ADSR envelope parameter record `{a, d, s, r}` (source line 102). -/
structure Adsr where
  a : ℚ
  d : ℚ
  s : ℚ
  r : ℚ
deriving DecidableEq

/-- The spread-update `{...adsr, [field]: v}` performed by `handleAdsrChange`
(source line 266); the fields edited by the knobs are "a", "d", "s", "r". -/
def setAdsrField (x : Adsr) (field : String) (v : ℚ) : Adsr :=
  match field with
  | "a" => { x with a := v }
  | "d" => { x with d := v }
  | "s" => { x with s := v }
  | "r" => { x with r := v }
  | _ => x

/-- The component state variables read by the tick chain: one render's
bindings of `waveform`, `steps`, `bpm`, `volume`, `filter`, `adsr`, `reverb`
(source lines 97-104). -/
structure Params where
  waveform : Waveform
  steps : List String
  bpm : ℚ
  volume : ℚ
  filter : ℚ
  adsr : Adsr
  reverb : ℚ
deriving DecidableEq

/-- Automation calls issued on a gain AudioParam (source lines 236-240 and
271-275). -/
inductive GainEvent
  | cancelScheduledValues (t : ℚ)
  | setValueAtTime (v t : ℚ)
  | linearRampToValueAtTime (v t : ℚ)
deriving DecidableEq

/-- The four-stage ADSR automation issued on a gain node anchored at `now`
(source lines 236-240, repeated at 271-275): cancel pending automation from
`now`, value 0 at `now`, ramp to `volume` at `now + a`, ramp to
`volume * s` at `now + a + d`, ramp to 0 at `now + a + d + r`. -/
def envSchedule (adsr : Adsr) (volume now : ℚ) : List GainEvent :=
  [GainEvent.cancelScheduledValues now,
   GainEvent.setValueAtTime 0 now,
   GainEvent.linearRampToValueAtTime volume (now + adsr.a),
   GainEvent.linearRampToValueAtTime (volume * adsr.s) (now + adsr.a + adsr.d),
   GainEvent.linearRampToValueAtTime 0 (now + adsr.a + adsr.d + adsr.r)]

/-- The transient per-note chain built by `nextStep` (source lines 216-247):
oscillator, low-pass filter and gain node, their parameters, the wiring, the
gain automation history, and the oscillator start/stop times. -/
structure Voice where
  oscType : Waveform
  oscFreq : ℚ
  filterType : String
  filterFreq : ℚ
  gainValue : ℚ
  gainSchedule : List GainEvent
  connections : List (String × String)
  oscStartTime : ℚ
  oscStopTime : ℚ
deriving DecidableEq

/-- Voice construction (source lines 216-247): node parameters from the tick's
parameter snapshot `p` and the pitch-table frequency `f`; `gain.gain.value`
is first assigned `volume` (line 225) and the envelope then pins the value to
0 at `now` (line 237); wiring osc → filterNode → gain, then gain into the dry
gain and into the convolver (the wet-path input); `osc.start(now)` and
`osc.stop(now + a + d + r)` (lines 242-243). -/
def createVoice (p : Params) (f now : ℚ) : Voice :=
  { oscType := p.waveform
    oscFreq := f
    filterType := "lowpass"
    filterFreq := p.filter
    gainValue := p.volume
    gainSchedule := envSchedule p.adsr p.volume now
    connections := [("osc", "filterNode"), ("filterNode", "gain"),
                    ("gain", "dryGain"), ("gain", "convolver")]
    oscStartTime := now
    oscStopTime := now + p.adsr.a + p.adsr.d + p.adsr.r }

/-- The engine's mutable refs: `playingRef.current`, the published
`currentStep` (-1 when idle), the `lastOsc/lastGain/lastFilter` refs (the
voices currently held, as a unit), and the pending `setTimeout`.  A pending
timer carries the `Params` snapshot captured by the closure of the render in
which the chain runs, together with the index of the tick that armed it and
the scheduled delay in milliseconds. -/
structure EngineState where
  playing : Bool
  currentStep : Int
  liveVoices : List Voice
  timer : Option (Params × ℕ × ℚ)
deriving DecidableEq

/-- Observable actions of one tick, in program order. -/
inductive TickEvent
  | publishStep (idx : ℕ)
  | teardownVoice (v : Voice)
  | createVoice (v : Voice)
  | scheduleTick (delayMs : ℚ) (nextIdx : ℕ)
deriving DecidableEq

/-- `const note = steps[idx]` (source line 214); a JS out-of-range access
yields `undefined`, which the following truthiness test treats like the
empty slot. -/
def stepNote (p : Params) (idx : ℕ) : String :=
  (p.steps.get? idx).getD ""

/-- The guarded voice construction `if (note && NOTE_FREQS[note]) {...}`
(source lines 215-247): a voice is built exactly when the slot is non-empty
and its identifier resolves in the pitch table. -/
def triggeredVoice (p : Params) (idx : ℕ) (now : ℚ) : Option Voice :=
  if stepNote p idx = "" then none
  else
    match noteFreq (stepNote p idx) with
    | some f => some (createVoice p f now)
    | none => none

/-- `const stepMs = (60 * 1000) / bpm / 4` (source line 251): the delay in
milliseconds until the next sixteenth-note tick. -/
def stepMsOf (p : Params) : ℚ :=
  60 * 1000 / p.bpm / 4

/-- `nextStep(idx)` (source lines 195-257), run with the closure snapshot `p`
at audio-clock time `now`.  In program order: publish the step index
(line 196), stop and disconnect the previous voice's nodes (lines 199-211),
read `steps[idx]` and build and start a voice when the slot is non-empty and
resolves in the pitch table (lines 214-247), then compute
`stepMs = 60 * 1000 / bpm / 4` and arm `setTimeout` (lines 251-256), whose
callback — a closure over the same render — will advance to
`(idx + 1) % steps.length` if `playingRef.current` still holds at fire time.
Returns the new engine state and the tick's event trace in program order. -/
def nextStep (p : Params) (idx : ℕ) (now : ℚ) (st : EngineState) :
    EngineState × List TickEvent :=
  ({ playing := st.playing
     currentStep := (idx : Int)
     liveVoices := (triggeredVoice p idx now).toList
     timer := some (p, idx, stepMsOf p) },
   TickEvent.publishStep idx ::
     st.liveVoices.map TickEvent.teardownVoice ++
     (triggeredVoice p idx now).toList.map TickEvent.createVoice ++
     [TickEvent.scheduleTick (stepMsOf p) ((idx + 1) % p.steps.length)])

/-- The long-lived dry gain, wet gain and convolver nodes
(source lines 122-138): only their gain values are ever re-parameterized. -/
structure PersistentGraph where
  dryGainValue : ℚ
  wetGainValue : ℚ
  connections : List (String × String)
deriving DecidableEq

/-- Initial wiring of the persistent graph (source lines 122-138):
dry gain = `1 - reverb`, wet gain = `reverb`, both into the destination, and
the convolver into the wet gain. -/
def initPersistentGraph (reverb : ℚ) : PersistentGraph :=
  { dryGainValue := 1 - reverb
    wetGainValue := reverb
    connections := [("dryGain", "destination"), ("wetGain", "destination"),
                    ("convolver", "wetGain")] }

/-- The whole component: `ui` is the latest render's state (what the control
surface shows and what freshly created handlers close over), `engine` the
mutable refs, `graph` the persistent audio graph. -/
structure System where
  ui : Params
  engine : EngineState
  graph : PersistentGraph
deriving DecidableEq

/-- `playSequence()` (source lines 162-172): no-op when `playingRef.current`;
otherwise set the playing flags, reset `currentStep` to -1, and call
`nextStep(0)` synchronously (zero delay), capturing the current render's
state `sys.ui` as the tick chain's snapshot. -/
def playSequence (now : ℚ) (sys : System) : System :=
  if sys.engine.playing then sys
  else
    let engArmed : EngineState :=
      { sys.engine with playing := true, currentStep := -1 }
    { sys with engine := (nextStep sys.ui 0 now engArmed).1 }

/-- `stopSequence()` (source lines 174-193): clear the playing flags, reset
`currentStep` to -1, `clearTimeout` the pending tick, and stop/disconnect
and drop the held oscillator, gain and filter nodes. -/
def stopSequence (sys : System) : System :=
  { sys with engine :=
      { sys.engine with
          playing := false, currentStep := -1, liveVoices := [], timer := none } }

/-- A pending `setTimeout` firing at audio-clock time `now` (source lines
252-256): the callback closes over the render snapshot `p` and the arming
tick's `idx`; it runs `nextStep((idx + 1) % steps.length)` only if
`playingRef.current` is still true at fire time. -/
def fireTimer (now : ℚ) (sys : System) : System :=
  match sys.engine.timer with
  | none => sys
  | some (p, idx, _) =>
    let engCleared : EngineState := { sys.engine with timer := none }
    if engCleared.playing then
      { sys with engine :=
          (nextStep p ((idx + 1) % p.steps.length) now engCleared).1 }
    else
      { sys with engine := engCleared }

/-- `handleAdsrChange(field, val)` (source lines 265-277): commit
`{...adsr, [field]: clamp(val, 0, 2)}` to the store, and — when a gain node
is held — re-issue the four-point envelope on it anchored at the current
audio-clock instant, reading the handler's closure bindings `adsr` and
`volume`, i.e. the parameter values in effect before the edit is committed. -/
def handleAdsrChange (field : String) (val now : ℚ) (sys : System) : System :=
  let newAdsr : Adsr := setAdsrField sys.ui.adsr field (clamp val 0 2)
  let engRearmed : EngineState :=
    match sys.engine.liveVoices with
    | [] => sys.engine
    | v :: rest =>
      { sys.engine with liveVoices :=
          { v with gainSchedule :=
              v.gainSchedule ++ envSchedule sys.ui.adsr sys.ui.volume now } :: rest }
  { sys with ui := { sys.ui with adsr := newAdsr }, engine := engRearmed }

/-- The BPM knob's change handler (source line 314):
`v => setBpm(clamp(v, 40, 300))`. -/
def handleBpmChange (v : ℚ) (sys : System) : System :=
  { sys with ui := { sys.ui with bpm := clamp v 40 300 } }

/-- The dry/wet mix effect (source lines 142-145): on a `reverb` change, set
the persistent dry gain to `1 - reverb` and the persistent wet gain to
`reverb`; nothing is connected or disconnected. -/
def applyReverbMix (reverb : ℚ) (g : PersistentGraph) : PersistentGraph :=
  { g with dryGainValue := 1 - reverb, wetGainValue := reverb }

/-- A `reverb` edit: the store takes the new value and the mix effect
(source lines 142-145) re-parameterizes the persistent graph.  No engine
state (and in particular no Voice node) is touched. -/
def handleReverbChange (reverb : ℚ) (sys : System) : System :=
  { sys with ui := { sys.ui with reverb := reverb },
             graph := applyReverbMix reverb sys.graph }

/-- Whether a tick event is the teardown of a voice. -/
def isTeardown : TickEvent → Bool
  | TickEvent.teardownVoice _ => true
  | _ => false

/-- Whether a tick event is the creation of a voice. -/
def isCreate : TickEvent → Bool
  | TickEvent.createVoice _ => true
  | _ => false

/-- Every teardown event occurs strictly before every creation event. -/
def strictlyOrdered (evs : List TickEvent) : Prop :=
  ∀ i j, (hi : i < evs.length) → (hj : j < evs.length) →
    isTeardown (evs.get ⟨i, hi⟩) = true → isCreate (evs.get ⟨j, hj⟩) = true →
    i < j

/-- The component's initial state (source lines 97-106): defaults waveform
sine, bpm 120, volume 0.5, filter 20000 Hz, adsr (0.01, 0.1, 0.7, 0.2),
reverb 0.01, not playing, step -1; we use the 4-slot sequence of the spec's
Scenario A, whose slot 1 is a rest. -/
def exampleParams : Params :=
  { waveform := Waveform.sine
    steps := ["E3", "", "G3", "A3"]
    bpm := 120
    volume := 0.5
    filter := 20000
    adsr := { a := 0.01, d := 0.1, s := 0.7, r := 0.2 }
    reverb := 0.01 }

/-- An idle engine: not playing, step -1, no held nodes, no pending timer. -/
def idleEngine : EngineState :=
  { playing := false, currentStep := -1, liveVoices := [], timer := none }

/-- A freshly initialized system in the idle state. -/
def exampleSystem : System :=
  { ui := exampleParams
    engine := idleEngine
    graph := initPersistentGraph 0.01 }

/-- The system right after pressing Play on `exampleSystem` at audio time 0:
tick 0 has fired, a voice for "E3" is live, and the next tick is armed. -/
def playingSystem : System :=
  playSequence 0 exampleSystem

example : noteFreq "E3" = some (164.81 : ℚ) := by simp [noteFreq, NOTE_FREQS]
example : noteFreq "" = none := by simp [noteFreq, NOTE_FREQS]
example : playingSystem.engine.playing = true := by
  simp [playingSystem, playSequence, exampleSystem, idleEngine, nextStep]
example : playingSystem.engine.currentStep = 0 := by
  simp [playingSystem, playSequence, exampleSystem, idleEngine, nextStep]
example : playingSystem.engine.timer = some (exampleParams, 0, 125) := by
  simp [playingSystem, playSequence, exampleSystem, idleEngine, nextStep, stepMsOf,
        exampleParams]
  norm_num
example : playingSystem.engine.liveVoices = [createVoice exampleParams 164.81 0] := by
  simp [playingSystem, playSequence, exampleSystem, idleEngine, nextStep, triggeredVoice,
        stepNote, exampleParams, noteFreq, NOTE_FREQS]

/-- Splitting lemma: a trace whose first part contains no creation event and
whose second part contains no teardown event puts every teardown strictly
before every creation. -/
lemma strictlyOrdered_append (A B : List TickEvent)
    (hA : ∀ e ∈ A, isCreate e = false)
    (hB : ∀ e ∈ B, isTeardown e = false) :
    strictlyOrdered (A ++ B) := by
  intro i j hi hj ht hc
  simp only [List.get_eq_getElem] at ht hc
  have hlen : (A ++ B).length = A.length + B.length := by simp
  have hiA : i < A.length := by
    by_contra hcon
    push_neg at hcon
    rw [List.getElem_append_right hcon] at ht
    have hib : i - A.length < B.length := by omega
    have hmem : B.get ⟨i - A.length, hib⟩ ∈ B := List.get_mem B (i - A.length) hib
    rw [List.get_eq_getElem] at hmem
    rw [hB _ hmem] at ht
    exact Bool.false_ne_true ht
  have hjB : A.length ≤ j := by
    by_contra hcon
    push_neg at hcon
    rw [List.getElem_append_left hcon] at hc
    have hmem : A.get ⟨j, hcon⟩ ∈ A := List.get_mem A j hcon
    rw [List.get_eq_getElem] at hmem
    rw [hA _ hmem] at hc
    exact Bool.false_ne_true hc
  omega

/-- Claim C1: for every tick, at most one Voice is live immediately after the
tick's advance logic returns, and within the tick's event trace the teardown
of the previous Voice's nodes is strictly ordered before any construction of
the new Voice's nodes. -/
theorem C1_monophonic_invariant (p : Params) (idx : ℕ) (now : ℚ) (st : EngineState) :
    (nextStep p idx now st).1.liveVoices.length ≤ 1 ∧
    strictlyOrdered (nextStep p idx now st).2 := by
  constructor
  · show (triggeredVoice p idx now).toList.length ≤ 1
    cases triggeredVoice p idx now <;> simp
  · have hsplit : (nextStep p idx now st).2 =
        (TickEvent.publishStep idx :: st.liveVoices.map TickEvent.teardownVoice) ++
        ((triggeredVoice p idx now).toList.map TickEvent.createVoice ++
          [TickEvent.scheduleTick (stepMsOf p) ((idx + 1) % p.steps.length)]) := by
      simp [nextStep]
    rw [hsplit]
    apply strictlyOrdered_append
    · intro e he
      rcases List.mem_cons.1 he with h | h
      · subst h; rfl
      · rcases List.mem_map.1 h with ⟨v, _, rfl⟩; rfl
    · intro e he
      rcases List.mem_append.1 he with h | h
      · rcases List.mem_map.1 h with ⟨v, _, rfl⟩; rfl
      · simp only [List.mem_singleton] at h
        subst h; rfl

/-- Claim C7: applying the dry/wet mix sets the persistent dry gain to
`1 - reverbAmount` and the persistent wet gain to `reverbAmount` (so the two
always sum to 1), rewires nothing, and touches no Voice node: the whole
engine state — in particular every live Voice — is left unchanged. -/
theorem C7_reverb_mix (amount : ℚ) (sys : System) :
    (handleReverbChange amount sys).graph.dryGainValue = 1 - amount ∧
    (handleReverbChange amount sys).graph.wetGainValue = amount ∧
    (handleReverbChange amount sys).graph.dryGainValue +
      (handleReverbChange amount sys).graph.wetGainValue = 1 ∧
    (handleReverbChange amount sys).graph.connections = sys.graph.connections ∧
    (handleReverbChange amount sys).engine = sys.engine := by
  refine ⟨rfl, rfl, ?_, rfl, rfl⟩
  show (1 - amount) + amount = 1
  ring

/-- Counterexample to claim C9: editing sustain to 1.5 stores 1.5 — the
handler clamps every ADSR field to [0, 2] — whereas clamping to sustain's
declared domain [0, 1] would store 1. -/
theorem C9_counterexample :
    (handleAdsrChange "s" 1.5 0 exampleSystem).ui.adsr.s = 1.5 ∧
    clamp 1.5 0 1 = 1 ∧ (1.5 : ℚ) ≠ 1 := by
  refine ⟨?_, ?_, by norm_num⟩
  · simp [handleAdsrChange, setAdsrField, clamp, exampleSystem, exampleParams, idleEngine]
    norm_num
  · simp [clamp]
    norm_num

/-- Claim C9 (amended): every ADSR edit stores the input clamped to [0, 2]
and is never rejected; this holds for attack, decay and release as claimed,
but also for sustain, which is clamped to [0, 2] rather than to its declared
domain [0, 1]. -/
theorem C9_adsr_edit_clamped (sys : System) (val now : ℚ) :
    (handleAdsrChange "a" val now sys).ui.adsr.a = clamp val 0 2 ∧
    (handleAdsrChange "d" val now sys).ui.adsr.d = clamp val 0 2 ∧
    (handleAdsrChange "s" val now sys).ui.adsr.s = clamp val 0 2 ∧
    (handleAdsrChange "r" val now sys).ui.adsr.r = clamp val 0 2 ∧
    0 ≤ clamp val 0 2 ∧ clamp val 0 2 ≤ 2 := by
  refine ⟨?_, ?_, ?_, ?_, ?_, ?_⟩
  · simp [handleAdsrChange, setAdsrField]
  · simp [handleAdsrChange, setAdsrField]
  · simp [handleAdsrChange, setAdsrField]
  · simp [handleAdsrChange, setAdsrField]
  · exact le_max_left 0 (min 2 val)
  · exact max_le (by norm_num) (min_le_left 2 val)

/-- When the slot is non-empty and resolves in the pitch table, the tick
builds exactly the voice of `createVoice`. -/
lemma triggeredVoice_eq_some (p : Params) (idx : ℕ) (now : ℚ) (f : ℚ)
    (hne : stepNote p idx ≠ "") (hf : noteFreq (stepNote p idx) = some f) :
    triggeredVoice p idx now = some (createVoice p f now) := by
  simp [triggeredVoice, hne, hf]

/-- When the slot is empty or its identifier is absent from the pitch table,
the tick builds no voice. -/
lemma triggeredVoice_eq_none (p : Params) (idx : ℕ) (now : ℚ)
    (hrest : stepNote p idx = "" ∨ noteFreq (stepNote p idx) = none) :
    triggeredVoice p idx now = none := by
  rcases hrest with h | h
  · simp [triggeredVoice, h]
  · unfold triggeredVoice
    rw [h]
    split <;> rfl

/-- Claim C2: a voice trigger cancels pending automation at/after the trigger
instant and schedules exactly the four envelope points — 0 at the trigger
instant, a linear ramp to `volume` after `attack`, to `volume * sustain`
after `attack + decay`, and to 0 after `attack + decay + release`; for
a = 0.01, d = 0.1, s = 0.7, r = 0.2, volume = 0.5 the points are
(t0, 0), (t0 + 0.01, 0.5), (t0 + 0.11, 0.35), (t0 + 0.31, 0). -/
theorem C2_envelope_schedule (p : Params) (idx : ℕ) (t0 : ℚ) (st : EngineState)
    (f : ℚ) (hne : stepNote p idx ≠ "") (hf : noteFreq (stepNote p idx) = some f) :
    ∃ v : Voice,
      (nextStep p idx t0 st).1.liveVoices = [v] ∧
      v.gainSchedule =
        [GainEvent.cancelScheduledValues t0,
         GainEvent.setValueAtTime 0 t0,
         GainEvent.linearRampToValueAtTime p.volume (t0 + p.adsr.a),
         GainEvent.linearRampToValueAtTime (p.volume * p.adsr.s)
           (t0 + p.adsr.a + p.adsr.d),
         GainEvent.linearRampToValueAtTime 0
           (t0 + p.adsr.a + p.adsr.d + p.adsr.r)] ∧
      (p.adsr = { a := 0.01, d := 0.1, s := 0.7, r := 0.2 } → p.volume = 0.5 →
        v.gainSchedule =
          [GainEvent.cancelScheduledValues t0,
           GainEvent.setValueAtTime 0 t0,
           GainEvent.linearRampToValueAtTime 0.5 (t0 + 0.01),
           GainEvent.linearRampToValueAtTime 0.35 (t0 + 0.11),
           GainEvent.linearRampToValueAtTime 0 (t0 + 0.31)]) := by
  refine ⟨createVoice p f t0, ?_, rfl, ?_⟩
  · show (triggeredVoice p idx t0).toList = _
    rw [triggeredVoice_eq_some p idx t0 f hne hf]
    rfl
  · intro ha hv
    show envSchedule p.adsr p.volume t0 = _
    rw [ha, hv]
    simp [envSchedule]
    norm_num
    exact ⟨by ring, by ring⟩

/-- Witness for C2 at the concrete inputs of the spec's Scenario B: slot 0 of
the example sequence ("E3") triggered at t0 = 2. -/
theorem C2_envelope_schedule_witness :
    ∃ v : Voice,
      (nextStep exampleParams 0 2 idleEngine).1.liveVoices = [v] ∧
      v.gainSchedule =
        [GainEvent.cancelScheduledValues 2,
         GainEvent.setValueAtTime 0 2,
         GainEvent.linearRampToValueAtTime 0.5 (2 + 0.01),
         GainEvent.linearRampToValueAtTime 0.35 (2 + 0.11),
         GainEvent.linearRampToValueAtTime 0 (2 + 0.31)] := by
  obtain ⟨v, h1, _, h3⟩ :=
    C2_envelope_schedule exampleParams 0 2 idleEngine 164.81
      (by simp [stepNote, exampleParams])
      (by simp [stepNote, exampleParams, noteFreq, NOTE_FREQS])
  exact ⟨v, h1, h3 rfl rfl⟩

/-- A pending timer firing while playback is active runs the captured
closure: `nextStep` on the snapshot stored when the timer was armed. -/
lemma fireTimer_some (now : ℚ) (sys : System) (p : Params) (idx : ℕ) (ms : ℚ)
    (ht : sys.engine.timer = some (p, idx, ms)) (hp : sys.engine.playing = true) :
    fireTimer now sys =
      { sys with engine :=
          (nextStep p ((idx + 1) % p.steps.length) now
            { sys.engine with timer := none }).1 } := by
  unfold fireTimer
  rw [ht]
  simp [hp]

/-- Claim C3 fails on the code (stale closure capture): press Play at
bpm = 120 (the first tick arms a 125 ms timer carrying the render snapshot),
turn the BPM knob to 60, and let the timer fire.  The fired tick runs the
captured closure, so it schedules the next tick after
60000 / 120 / 4 = 125 ms — not the 60000 / 60 / 4 = 250 ms demanded by the
bpm in effect at fire time.  The edited bpm (and likewise edited sequence
contents) first takes effect when a new chain is started by a later Play. -/
theorem C3_stale_bpm_at_fire :
    (handleBpmChange 60 playingSystem).ui.bpm = 60 ∧
    (fireTimer 1 (handleBpmChange 60 playingSystem)).engine.timer =
      some (exampleParams, 1, 125) ∧
    exampleParams.bpm = 120 ∧
    60 * 1000 / (60 : ℚ) / 4 = 250 ∧
    (125 : ℚ) ≠ 250 := by
  have heng : (handleBpmChange 60 playingSystem).engine = playingSystem.engine := rfl
  have ht : playingSystem.engine.timer = some (exampleParams, 0, 125) := by
    simp [playingSystem, playSequence, exampleSystem, idleEngine, nextStep, stepMsOf,
          exampleParams]
    norm_num
  have hp : playingSystem.engine.playing = true := by
    simp [playingSystem, playSequence, exampleSystem, idleEngine, nextStep]
  have hfire := fireTimer_some 1 (handleBpmChange 60 playingSystem) exampleParams 0 125
    (by rw [heng]; exact ht) (by rw [heng]; exact hp)
  refine ⟨?_, ?_, rfl, by norm_num, by norm_num⟩
  · show clamp 60 40 300 = 60
    norm_num [clamp]
  · rw [hfire]
    show some (exampleParams, (0 + 1) % exampleParams.steps.length,
      stepMsOf exampleParams) = some (exampleParams, 1, 125)
    norm_num [exampleParams, stepMsOf]

/-- Claim C4: the transport contract.  `play()` when already playing is a
no-op; otherwise it sets the playing flag, resets the step index to -1, and
runs the first tick synchronously (zero delay) with the current render's
parameters, leaving the engine playing at step 0.  `stop()` clears the
playing flag, resets the index to -1, cancels the pending timer and tears
down the held voice; on an already-stopped engine it is a no-op.  A timer
that was already in flight when `stop()` ran does nothing at fire time
beyond expiring, because the callback re-checks `playingRef.current`. -/
theorem C4_transport_contract (sys : System) (now : ℚ) :
    (sys.engine.playing = true → playSequence now sys = sys) ∧
    (sys.engine.playing = false →
       playSequence now sys =
         { sys with engine := (nextStep sys.ui 0 now
             { sys.engine with playing := true, currentStep := -1 }).1 } ∧
       (playSequence now sys).engine.playing = true ∧
       (playSequence now sys).engine.currentStep = 0) ∧
    ((stopSequence sys).engine.playing = false ∧
     (stopSequence sys).engine.currentStep = -1 ∧
     (stopSequence sys).engine.timer = none ∧
     (stopSequence sys).engine.liveVoices = []) ∧
    (sys.engine = idleEngine → stopSequence sys = sys) ∧
    (sys.engine.playing = false →
       fireTimer now sys = { sys with engine := { sys.engine with timer := none } }) := by
  obtain ⟨ui, ⟨pl, cs, lv, tm⟩, g⟩ := sys
  refine ⟨?_, ?_, ⟨rfl, rfl, rfl, rfl⟩, ?_, ?_⟩
  · intro h
    have h2 : pl = true := h
    subst h2
    rfl
  · intro h
    have h2 : pl = false := h
    subst h2
    exact ⟨rfl, rfl, rfl⟩
  · intro h
    show System.mk ui (EngineState.mk false (-1) [] none) g = _
    rw [show EngineState.mk pl cs lv tm = idleEngine from h]
    rfl
  · intro h
    have h2 : pl = false := h
    subst h2
    cases tm with
    | none => rfl
    | some pit => rfl

/-- Witness for C4: on the concrete idle system, Play starts at step 0, Stop
is a no-op, and a firing timer does nothing when not playing; on the concrete
playing system, Play is a no-op. -/
theorem C4_transport_contract_witness :
    playSequence 1 playingSystem = playingSystem ∧
    (playSequence 0 exampleSystem).engine.playing = true ∧
    (playSequence 0 exampleSystem).engine.currentStep = 0 ∧
    stopSequence exampleSystem = exampleSystem ∧
    fireTimer 0 exampleSystem =
      { exampleSystem with engine := { exampleSystem.engine with timer := none } } := by
  have h1 := C4_transport_contract playingSystem 1
  have h2 := C4_transport_contract exampleSystem 0
  have hplaying : playingSystem.engine.playing = true := by
    simp [playingSystem, playSequence, exampleSystem, idleEngine, nextStep]
  have hidle : exampleSystem.engine.playing = false := rfl
  obtain ⟨-, hp, -⟩ := h2.2.1 hidle
  exact ⟨h1.1 hplaying, hp, (h2.2.1 hidle).2.2, h2.2.2.2.1 rfl, h2.2.2.2.2 hidle⟩

/-- Claim C5: a tick whose slot is empty or holds an identifier absent from
the pitch table builds no Voice and does not fail: the step index is still
published, the previous Voice is still torn down, and the next tick is still
scheduled after 60000 / bpm / 4 ms to advance to (idx + 1) mod the sequence
length. -/
theorem C5_rest_tick (p : Params) (idx : ℕ) (now : ℚ) (st : EngineState)
    (hrest : stepNote p idx = "" ∨ noteFreq (stepNote p idx) = none) :
    (nextStep p idx now st).1.liveVoices = [] ∧
    (nextStep p idx now st).1.currentStep = (idx : Int) ∧
    (nextStep p idx now st).1.timer = some (p, idx, 60 * 1000 / p.bpm / 4) ∧
    (nextStep p idx now st).2 =
      TickEvent.publishStep idx ::
        st.liveVoices.map TickEvent.teardownVoice ++
        [TickEvent.scheduleTick (60 * 1000 / p.bpm / 4)
          ((idx + 1) % p.steps.length)] := by
  have hnone := triggeredVoice_eq_none p idx now hrest
  refine ⟨?_, rfl, rfl, ?_⟩
  · show (triggeredVoice p idx now).toList = []
    rw [hnone]
    rfl
  · show TickEvent.publishStep idx ::
        st.liveVoices.map TickEvent.teardownVoice ++
        (triggeredVoice p idx now).toList.map TickEvent.createVoice ++ _ = _
    rw [hnone]
    simp [stepMsOf]

/-- Witness for C5 at two concrete rest slots: slot 1 of the example sequence
is empty, and a sequence whose slot 0 holds the identifier "Q9", absent from
the pitch table, also produces a silent, non-failing tick. -/
theorem C5_rest_tick_witness :
    (nextStep exampleParams 1 0 idleEngine).1.liveVoices = [] ∧
    (nextStep exampleParams 1 0 idleEngine).1.currentStep = 1 ∧
    (nextStep { exampleParams with steps := ["Q9"] } 0 0 idleEngine).1.liveVoices = [] := by
  have h1 := C5_rest_tick exampleParams 1 0 idleEngine
    (Or.inl (by simp [stepNote, exampleParams]))
  have h2 := C5_rest_tick { exampleParams with steps := ["Q9"] } 0 0 idleEngine
    (Or.inr (by simp [stepNote, exampleParams, noteFreq, NOTE_FREQS]))
  exact ⟨h1.1, h1.2.1, h2.1⟩

/-- An ADSR edit leaves the engine's transport fields alone: it can touch
only the held gain node's automation. -/
lemma handleAdsrChange_engine_frame (field : String) (val now : ℚ) (sys : System) :
    (handleAdsrChange field val now sys).engine.timer = sys.engine.timer ∧
    (handleAdsrChange field val now sys).engine.playing = sys.engine.playing ∧
    (handleAdsrChange field val now sys).engine.currentStep = sys.engine.currentStep := by
  obtain ⟨ui, ⟨pl, cs, lv, tm⟩, g⟩ := sys
  cases lv with
  | nil => exact ⟨rfl, rfl, rfl⟩
  | cons v rest => exact ⟨rfl, rfl, rfl⟩

/-- The engine right after Play on the example system: playing at step 0,
the "E3" voice live, and a 125 ms timer armed carrying the captured render
snapshot. -/
lemma playingSystem_engine :
    playingSystem.engine =
      { playing := true
        currentStep := 0
        liveVoices := [createVoice exampleParams 164.81 0]
        timer := some (exampleParams, 0, 125) } := by
  simp [playingSystem, playSequence, exampleSystem, idleEngine, nextStep, stepMsOf,
        exampleParams, triggeredVoice, stepNote, noteFreq, NOTE_FREQS]
  norm_num

/-- Counterexample to claim C6's closing clause: with the example playback
running (captured attack 0.01), edit attack to 1.  The store now holds
attack = 1, but the next trigger of the ongoing session — the "G3" voice
built two timer fires later — is still scheduled with the captured attack:
its attack ramp lands at trigger + 0.01, not trigger + 1.  The newly edited
value therefore does not affect the next trigger of the running session. -/
theorem C6_counterexample :
    (handleAdsrChange "a" 1 0 playingSystem).ui.adsr.a = 1 ∧
    (fireTimer 2 (fireTimer 1 (handleAdsrChange "a" 1 0 playingSystem))).engine.liveVoices =
      [createVoice exampleParams 196 2] ∧
    (createVoice exampleParams 196 2).gainSchedule.get? 2 =
      some (GainEvent.linearRampToValueAtTime 0.5 (2 + 0.01)) ∧
    exampleParams.adsr.a = 0.01 ∧
    ((2 : ℚ) + 0.01 ≠ 2 + 1) := by
  have hfr := handleAdsrChange_engine_frame "a" 1 0 playingSystem
  have ht1 : (handleAdsrChange "a" 1 0 playingSystem).engine.timer =
      some (exampleParams, 0, 125) := by
    rw [hfr.1, playingSystem_engine]
  have hp1 : (handleAdsrChange "a" 1 0 playingSystem).engine.playing = true := by
    rw [hfr.2.1, playingSystem_engine]
  have hf1 := fireTimer_some 1 (handleAdsrChange "a" 1 0 playingSystem)
    exampleParams 0 125 ht1 hp1
  have ht2 : (fireTimer 1 (handleAdsrChange "a" 1 0 playingSystem)).engine.timer =
      some (exampleParams, 1, 125) := by
    rw [hf1]
    show some (exampleParams, (0 + 1) % exampleParams.steps.length,
      stepMsOf exampleParams) = some (exampleParams, 1, 125)
    norm_num [exampleParams, stepMsOf]
  have hp2 : (fireTimer 1 (handleAdsrChange "a" 1 0 playingSystem)).engine.playing =
      true := by
    rw [hf1]
    exact hp1
  have hf2 := fireTimer_some 2 (fireTimer 1 (handleAdsrChange "a" 1 0 playingSystem))
    exampleParams 1 125 ht2 hp2
  refine ⟨?_, ?_, rfl, rfl, by norm_num⟩
  · show (setAdsrField exampleParams.adsr "a" (clamp 1 0 2)).a = 1
    norm_num [setAdsrField, clamp, exampleParams]
  · rw [hf2]
    show (triggeredVoice exampleParams ((1 + 1) % exampleParams.steps.length) 2).toList =
      [createVoice exampleParams 196 2]
    simp [triggeredVoice, stepNote, exampleParams, noteFreq, NOTE_FREQS]
    norm_num [createVoice, envSchedule]

/-- The re-armed voice: the held gain node with the four-point envelope
re-issued on its automation timeline (source lines 271-275); every other
node and time of the voice is untouched. -/
def rearmVoice (v : Voice) (adsr : Adsr) (volume now : ℚ) : Voice :=
  { v with gainSchedule := v.gainSchedule ++ envSchedule adsr volume now }

/-- A re-render that only replaces the control-surface state: the engine refs
and the persistent graph are unchanged. -/
def setUi (sys : System) (ui2 : Params) : System :=
  { sys with ui := ui2 }

/-- Claim C6 (amended): an ADSR edit while a Voice is live re-arms the live
gain with the four-point schedule anchored at the current instant, computed
from the parameter values in effect before the edit is committed; the edit
commits the clamped new value to the store, and the newly edited value
affects the next edit (whose re-arm reads the updated store) and any chain
that reads the updated store (e.g. a playback started after the edit) — but
a tick of the ongoing session runs the captured snapshot and is unaffected
by the current control-surface values. -/
theorem C6_adsr_edit_previous_params (sys : System) (field : String) (val now : ℚ)
    (v : Voice) (rest : List Voice) (hlive : sys.engine.liveVoices = v :: rest) :
    (handleAdsrChange field val now sys).engine.liveVoices =
      rearmVoice v sys.ui.adsr sys.ui.volume now :: rest ∧
    (handleAdsrChange field val now sys).ui.adsr =
      setAdsrField sys.ui.adsr field (clamp val 0 2) ∧
    (∀ fld2 val2 now2,
      (handleAdsrChange fld2 val2 now2
          (handleAdsrChange field val now sys)).engine.liveVoices =
        rearmVoice (rearmVoice v sys.ui.adsr sys.ui.volume now)
          (setAdsrField sys.ui.adsr field (clamp val 0 2))
          sys.ui.volume now2 :: rest) ∧
    (∀ ui2 now2,
      (fireTimer now2 (setUi (handleAdsrChange field val now sys) ui2)).engine =
        (fireTimer now2 (handleAdsrChange field val now sys)).engine) := by
  obtain ⟨ui, ⟨pl, cs, lv, tm⟩, g⟩ := sys
  have hlv : lv = v :: rest := hlive
  subst hlv
  refine ⟨rfl, rfl, fun fld2 val2 now2 => rfl, fun ui2 now2 => ?_⟩
  cases tm with
  | none => rfl
  | some pit =>
    obtain ⟨p2, i2, m2⟩ := pit
    cases pl <;> rfl

/-- Witness for the amended C6 on the concrete playing system: editing
attack to 1 re-arms the live "E3" voice using the pre-edit parameters and
commits the clamped new value to the store. -/
theorem C6_adsr_edit_previous_params_witness :
    (handleAdsrChange "a" 1 0 playingSystem).engine.liveVoices =
      rearmVoice (createVoice exampleParams 164.81 0)
        playingSystem.ui.adsr playingSystem.ui.volume 0 :: [] ∧
    (handleAdsrChange "a" 1 0 playingSystem).ui.adsr =
      setAdsrField playingSystem.ui.adsr "a" (clamp 1 0 2) := by
  have h := C6_adsr_edit_previous_params playingSystem "a" 1 0
    (createVoice exampleParams 164.81 0) [] (by rw [playingSystem_engine])
  exact ⟨h.1, h.2.1⟩

/-- Claim C8: voice-creation postconditions for a non-rest trigger — the
oscillator frequency is the pitch-table lookup, the waveform and filter
cutoff come from the Timbre values the tick runs with, the filter is
low-pass, the gain's automation pins the amplitude to 0 at the start instant,
the chain is wired tone → filter → gain with the gain feeding both the dry
sink and the wet-path (convolver) sink, the oscillator starts at creation
time and is scheduled to stop at now + attack + decay + release. -/
theorem C8_voice_creation (p : Params) (idx : ℕ) (now : ℚ) (st : EngineState)
    (f : ℚ) (hne : stepNote p idx ≠ "") (hf : noteFreq (stepNote p idx) = some f) :
    (nextStep p idx now st).1.liveVoices = [createVoice p f now] ∧
    (createVoice p f now).oscFreq = f ∧
    (createVoice p f now).oscType = p.waveform ∧
    (createVoice p f now).filterType = "lowpass" ∧
    (createVoice p f now).filterFreq = p.filter ∧
    (createVoice p f now).gainSchedule.get? 1 =
      some (GainEvent.setValueAtTime 0 now) ∧
    ("gain", "dryGain") ∈ (createVoice p f now).connections ∧
    ("gain", "convolver") ∈ (createVoice p f now).connections ∧
    (createVoice p f now).connections =
      [("osc", "filterNode"), ("filterNode", "gain"),
       ("gain", "dryGain"), ("gain", "convolver")] ∧
    (createVoice p f now).oscStartTime = now ∧
    (createVoice p f now).oscStopTime = now + p.adsr.a + p.adsr.d + p.adsr.r := by
  refine ⟨?_, rfl, rfl, rfl, rfl, rfl, ?_, ?_, rfl, rfl, rfl⟩
  · show (triggeredVoice p idx now).toList = _
    rw [triggeredVoice_eq_some p idx now f hne hf]
    rfl
  · simp [createVoice]
  · simp [createVoice]

/-- Witness for C8: the "E3" voice triggered at time 3 from the example
parameters. -/
theorem C8_voice_creation_witness :
    (nextStep exampleParams 0 3 idleEngine).1.liveVoices =
      [createVoice exampleParams 164.81 3] ∧
    (createVoice exampleParams 164.81 3).oscType = Waveform.sine ∧
    (createVoice exampleParams 164.81 3).oscStopTime = 3 + 0.01 + 0.1 + 0.2 := by
  have h := C8_voice_creation exampleParams 0 3 idleEngine 164.81
    (by simp [stepNote, exampleParams])
    (by simp [stepNote, exampleParams, noteFreq, NOTE_FREQS])
  refine ⟨h.1, h.2.2.1, ?_⟩
  rw [h.2.2.2.2.2.2.2.2.2.2]
  norm_num [exampleParams]

/-- Claim C10: re-arming the envelope on a mid-flight ADSR edit changes only
the gain node's automation timeline — every other field of the live voice,
in particular the oscillator's previously scheduled stop time, is left
unchanged. -/
theorem C10_rearm_preserves_osc_stop (sys : System) (field : String) (val now : ℚ)
    (v : Voice) (rest : List Voice) (hlive : sys.engine.liveVoices = v :: rest) :
    ∃ w : Voice,
      (handleAdsrChange field val now sys).engine.liveVoices = w :: rest ∧
      w.oscStopTime = v.oscStopTime ∧
      w.oscStartTime = v.oscStartTime ∧
      w.oscType = v.oscType ∧
      w.oscFreq = v.oscFreq ∧
      w.filterType = v.filterType ∧
      w.filterFreq = v.filterFreq ∧
      w.gainValue = v.gainValue ∧
      w.connections = v.connections ∧
      w.gainSchedule = v.gainSchedule ++ envSchedule sys.ui.adsr sys.ui.volume now := by
  obtain ⟨ui, ⟨pl, cs, lv, tm⟩, g⟩ := sys
  have hlv : lv = v :: rest := hlive
  subst hlv
  exact ⟨_, rfl, rfl, rfl, rfl, rfl, rfl, rfl, rfl, rfl, rfl⟩

/-- Witness for C10 on the concrete playing system, at an edit instant whose
re-armed release end (5.31) lies past the voice's original oscillator stop
time (0.31): the stop time is nevertheless unchanged. -/
theorem C10_rearm_preserves_osc_stop_witness :
    (∃ w : Voice,
      (handleAdsrChange "r" 1 5 playingSystem).engine.liveVoices = w :: [] ∧
      w.oscStopTime = (createVoice exampleParams 164.81 0).oscStopTime) ∧
    (createVoice exampleParams 164.81 0).oscStopTime <
      5 + playingSystem.ui.adsr.a + playingSystem.ui.adsr.d +
        playingSystem.ui.adsr.r := by
  have h := C10_rearm_preserves_osc_stop playingSystem "r" 1 5
    (createVoice exampleParams 164.81 0) [] (by rw [playingSystem_engine])
  obtain ⟨w, h1, h2, -⟩ := h
  refine ⟨⟨w, h1, h2⟩, ?_⟩
  show (0 : ℚ) + 0.01 + 0.1 + 0.2 < 5 + 0.01 + 0.1 + 0.2
  norm_num
